import Mathlib

/-
  A verification development for the `eaux` library (jonathanmarvens/eaux).

  `eaux` provides two closed, immutable container types over untyped
  JavaScript runtime values:
    - `Maybe`  (file `src/maybe.ts`): variants `Nothing` and `Something(value)`;
    - `Result` (file `src/result.ts`): variants `Failure(error)` and `Success(value)`.

  The embedding below is a shallow one:
    - JavaScript runtime values are modelled by the inductive `JSVal`
      (the library's type parameters all default to `any`, and containers can
      be nested inside containers, so `JSVal`, `Maybe` and `Result` are
      mutually inductive);
    - methods that can throw (`unwrap`, `expect`, the `assert`-guarded
      operations of `result.ts`, and the `toString` renderers with their
      defensive unreachable branch) return `Except EauxError _`;
    - caller-supplied callbacks invoked purely for effect (`inspect`,
      `inspectFailure`) are modelled with an explicit state thread
      `f : σ → JSVal → σ`, so "f is invoked exactly once with v" is the
      equation `... = (f s v, _)`;
    - `maybe.ts` performs no runtime argument checks, so its combinators are
      plain total functions; `result.ts` guards several public methods with
      `assert(...)` checks that are kept explicitly.
-/

namespace Eaux

mutual

inductive JSVal where
  | jsNull
  | jsUndefined
  | jsBool (b : Bool)
  | jsNum (n : Int)
  | jsStr (s : String)
  | jsMaybe (m : Maybe)
  | jsResult (r : Result)
  deriving DecidableEq

inductive Maybe where
  | nothing
  | something (value : JSVal)
  deriving DecidableEq

inductive Result where
  | failure (error : JSVal)
  | success (value : JSVal)
  deriving DecidableEq

end

/-- Modelled from the spec: the error classes under `src/error/` (files
`expectation.ts`, `improper-unwrap.ts`, `unreachable-code.ts`) and the
`src/utilities/assert.ts` helper are not part of the source snapshot.
Per spec section 7 there are three error kinds, each carrying a message
(`ExpectationFailure` carries the caller-supplied message verbatim,
`ImproperUnwrap` a fixed descriptive message, `UnreachableInvariant` a
defect signal), plus the abort/assert-style construction-time precondition
failure. -/
inductive EauxError where
  | expectationError (message : String)
  | improperUnwrapError (message : String)
  | unreachableCodeError (message : String)
  | assertionFailed
  deriving DecidableEq

/-- Modelled from the spec: `src/utilities/assert.ts` is not in the source
snapshot; per spec section 7, precondition checks "fail loudly and
immediately (abort/assert-style)" when violated, and are no-ops otherwise. -/
def assert (condition : Bool) : Except EauxError Unit :=
  if condition then .ok () else .error .assertionFailed

/-- `typeof v === 'undefined'` for an embedded JavaScript value. -/
def JSVal.isUndefined : JSVal → Bool
  | .jsUndefined => true
  | _ => false

/-- `v === null` for an embedded JavaScript value. -/
def JSVal.isNull : JSVal → Bool
  | .jsNull => true
  | _ => false

/-- A value is absent when it is `null` or `undefined`. -/
def JSVal.isAbsent (v : JSVal) : Bool :=
  v.isNull || v.isUndefined

/-- `typeof v === 'boolean'`. -/
def JSVal.isBool : JSVal → Bool
  | .jsBool _ => true
  | _ => false

/-- `isMaybe(value)` (source `src/maybe.ts`): instance-of check against the
`Maybe` class. -/
def JSVal.isMaybe : JSVal → Bool
  | .jsMaybe _ => true
  | _ => false

/-- `isResult(value)` (source `src/result.ts`): instance-of check against the
`Result` class. -/
def JSVal.isResult : JSVal → Bool
  | .jsResult _ => true
  | _ => false

/-- JavaScript truthiness of an embedded value (used by `Maybe#filter`,
whose source tests `predicate(this.#value) ? this : Nothing.make()`). -/
def JSVal.truthy : JSVal → Bool
  | .jsNull => false
  | .jsUndefined => false
  | .jsBool b => b
  | .jsNum n => n != 0
  | .jsStr s => s != ""
  | .jsMaybe _ => true
  | .jsResult _ => true

/-- `nothing()` (source `src/maybe.ts`): returns the canonical `Nothing`
instance. -/
def nothing : Maybe :=
  Maybe.nothing

/-- `something(value)` (source `src/maybe.ts`): `Something.make(value)`. -/
def something (value : JSVal) : Maybe :=
  Maybe.something value

/-- `success(value)` (source `src/result.ts`): `Success.make(value)`; no
constraint on the value. -/
def success (value : JSVal) : Result :=
  Result.success value

/-- `failure(error)` (source `src/result.ts` lines 471-475):
`assert(typeof error !== 'undefined'); assert(error !== null);
return Failure.make(error)`. -/
def failure (error : JSVal) : Except EauxError Result := do
  assert (!error.isUndefined)
  assert (!error.isNull)
  return Result.failure error

/-- `Maybe#and(other)` (source `src/maybe.ts`): `Nothing` returns itself,
`Something` returns `other`. (`maybe.ts` performs no runtime check on
`other`; the TypeScript signature types it as a `Maybe`.) -/
def Maybe.and (m : Maybe) (other : Maybe) : Maybe :=
  match m with
  | .nothing => m
  | .something _ => other

/-- `Maybe#andThen(f)` (source `src/maybe.ts`): `Nothing` returns itself,
`Something` returns `f(value)` (the source applies `f` without checking its
result, so the raw returned value is modelled). -/
def Maybe.andThen (m : Maybe) (f : JSVal → JSVal) : JSVal :=
  match m with
  | .nothing => .jsMaybe m
  | .something v => f v

/-- `Maybe#expect(message)` (source `src/maybe.ts`): `Something` returns the
contained value; `Nothing` throws `ExpectationError(message)`. -/
def Maybe.expect (m : Maybe) (message : String) : Except EauxError JSVal :=
  match m with
  | .nothing => .error (.expectationError message)
  | .something v => .ok v

/-- `Maybe#filter(predicate)` (source `src/maybe.ts`): `Something` keeps
itself when `predicate(value)` is truthy, else becomes `Nothing`; `Nothing`
returns itself. -/
def Maybe.filter (m : Maybe) (predicate : JSVal → JSVal) : Maybe :=
  match m with
  | .nothing => m
  | .something v => if (predicate v).truthy then m else Maybe.nothing

/-- `Maybe#getSuccessOr(error)` (source `src/maybe.ts`): `Something` returns
`success(value)`; `Nothing` returns `failure(error)` (which can throw via
the `failure` construction preconditions). -/
def Maybe.getSuccessOr (m : Maybe) (error : JSVal) : Except EauxError Result :=
  match m with
  | .nothing => failure error
  | .something v => .ok (success v)

/-- `Maybe#inspect(f)` (source `src/maybe.ts`): `Something` invokes
`f(value)` for its side effect and returns itself; `Nothing` returns itself
without invoking `f`. The callback effect is modelled by threading a state. -/
def Maybe.inspect {σ : Type} (m : Maybe) (f : σ → JSVal → σ) (s : σ) : σ × Maybe :=
  match m with
  | .nothing => (s, m)
  | .something v => (f s v, m)

/-- `Maybe#isNothing()` (source `src/maybe.ts`). -/
def Maybe.isNothing : Maybe → Bool
  | .nothing => true
  | .something _ => false

/-- `Maybe#isNothingOr(predicate)` (source `src/maybe.ts`): `Nothing` returns
`true`; `Something` returns `predicate(value)` as-is (no boolean check in the
source). -/
def Maybe.isNothingOr (m : Maybe) (predicate : JSVal → JSVal) : JSVal :=
  match m with
  | .nothing => .jsBool true
  | .something v => predicate v

/-- `Maybe#isSomething()` (source `src/maybe.ts`). -/
def Maybe.isSomething : Maybe → Bool
  | .nothing => false
  | .something _ => true

/-- `Maybe#isSomethingAnd(predicate)` (source `src/maybe.ts`): `Nothing`
returns `false`; `Something` returns `predicate(value)` as-is. -/
def Maybe.isSomethingAnd (m : Maybe) (predicate : JSVal → JSVal) : JSVal :=
  match m with
  | .nothing => .jsBool false
  | .something v => predicate v

/-- `Maybe#map(f)` (source `src/maybe.ts`): `Something` returns
`Something.make(f(value))`; `Nothing` returns itself. -/
def Maybe.map (m : Maybe) (f : JSVal → JSVal) : Maybe :=
  match m with
  | .nothing => m
  | .something v => Maybe.something (f v)

/-- `Maybe#map(f)` with the callback's invocations made observable through a
threaded state (same dispatch as `Maybe.map`; the `Something` branch invokes
the callback exactly once, the `Nothing` branch not at all). -/
def Maybe.mapT {σ : Type} (m : Maybe) (f : σ → JSVal → σ × JSVal) (s : σ) : σ × Maybe :=
  match m with
  | .nothing => (s, m)
  | .something v =>
      match f s v with
      | (s', value) => (s', Maybe.something value)

/-- `Maybe#or(other)` (source `src/maybe.ts`): `Something` returns itself;
`Nothing` returns `other`. -/
def Maybe.or (m : Maybe) (other : Maybe) : Maybe :=
  match m with
  | .nothing => other
  | .something _ => m

/-- `Maybe#unwrap()` (source `src/maybe.ts`): `Something` returns the
contained value; `Nothing` throws an `ImproperUnwrapError` with a fixed
message. -/
def Maybe.unwrap (m : Maybe) : Except EauxError JSVal :=
  match m with
  | .nothing => .error (.improperUnwrapError "Attempted to unwrap a `Nothing` value")
  | .something v => .ok v

/-- `Result#and(other)` (source `src/result.ts` lines 109-112):
`assert(isResult(other))`, then `Failure` returns itself and `Success`
returns `other`. The argument is an untyped runtime value, as the assert is
a genuine dynamic check. -/
def Result.and (r : Result) (other : JSVal) : Except EauxError JSVal := do
  assert other.isResult
  match r with
  | .failure _ => return .jsResult r
  | .success _ => return other

/-- `Result#andThen(f)` (source `src/result.ts`): `Failure` returns itself;
`Success` computes `f(value)`, asserts `isResult` of the result, and returns
it (source lines 386-390). -/
def Result.andThen (r : Result) (f : JSVal → JSVal) : Except EauxError JSVal :=
  match r with
  | .failure _ => .ok (.jsResult r)
  | .success v => do
      let value := f v
      assert value.isResult
      return value

/-- `Result#expect(message)` (source `src/result.ts`): `Success` returns the
contained value; `Failure` throws `ExpectationError(message)`. -/
def Result.expect (r : Result) (message : String) : Except EauxError JSVal :=
  match r with
  | .failure _ => .error (.expectationError message)
  | .success v => .ok v

/-- `Result#expectFailure(message)` (source `src/result.ts`): `Failure`
returns the contained error; `Success` throws `ExpectationError(message)`. -/
def Result.expectFailure (r : Result) (message : String) : Except EauxError JSVal :=
  match r with
  | .failure e => .ok e
  | .success _ => .error (.expectationError message)

/-- `Result#getFailure()` (source `src/result.ts`): `Failure` returns
`something(error)`; `Success` returns `nothing()`. -/
def Result.getFailure (r : Result) : Maybe :=
  match r with
  | .failure e => something e
  | .success _ => nothing

/-- `Result#getSuccess()` (source `src/result.ts`): `Failure` returns
`nothing()`; `Success` returns `something(value)`. -/
def Result.getSuccess (r : Result) : Maybe :=
  match r with
  | .failure _ => nothing
  | .success v => something v

/-- `Result#inspect(f)` (source `src/result.ts`): `Success` invokes
`f(value)` and returns itself; `Failure` returns itself without invoking
`f`. Callback effect modelled by threading a state. -/
def Result.inspect {σ : Type} (r : Result) (f : σ → JSVal → σ) (s : σ) : σ × Result :=
  match r with
  | .failure _ => (s, r)
  | .success v => (f s v, r)

/-- `Result#inspectFailure(f)` (source `src/result.ts`): `Failure` invokes
`f(error)` and returns itself; `Success` returns itself without invoking
`f`. -/
def Result.inspectFailure {σ : Type} (r : Result) (f : σ → JSVal → σ) (s : σ) : σ × Result :=
  match r with
  | .failure e => (f s e, r)
  | .success _ => (s, r)

/-- `Result#isFailure()` (source `src/result.ts`). -/
def Result.isFailure : Result → Bool
  | .failure _ => true
  | .success _ => false

/-- `Result#isFailureAnd(predicate)` (source `src/result.ts`): `Success`
returns `false`; `Failure` computes `predicate(error)`, asserts the result
is a boolean, and returns it (source lines 332-336). -/
def Result.isFailureAnd (r : Result) (predicate : JSVal → JSVal) : Except EauxError JSVal :=
  match r with
  | .failure e => do
      let isSatified := predicate e
      assert isSatified.isBool
      return isSatified
  | .success _ => .ok (.jsBool false)

/-- `Result#isSuccess()` (source `src/result.ts`). -/
def Result.isSuccess : Result → Bool
  | .failure _ => false
  | .success _ => true

/-- `Result#isSuccessAnd(predicate)` (source `src/result.ts`): `Failure`
returns `false`; `Success` computes `predicate(value)`, asserts the result
is a boolean, and returns it (source lines 429-433). -/
def Result.isSuccessAnd (r : Result) (predicate : JSVal → JSVal) : Except EauxError JSVal :=
  match r with
  | .failure _ => .ok (.jsBool false)
  | .success v => do
      let isSatified := predicate v
      assert isSatified.isBool
      return isSatified

/-- `Result#map(f)` (source `src/result.ts`): `Success` returns
`Success.make(f(value))`; `Failure` returns itself. -/
def Result.map (r : Result) (f : JSVal → JSVal) : Result :=
  match r with
  | .failure _ => r
  | .success v => Result.success (f v)

/-- `Result#mapFailure(f)` (source `src/result.ts` lines 350-355): `Success`
returns itself; `Failure` computes `f(error)`, asserts it is neither
`undefined` nor `null`, and returns `Failure.make` of it. -/
def Result.mapFailure (r : Result) (f : JSVal → JSVal) : Except EauxError Result :=
  match r with
  | .failure e => do
      let error := f e
      assert (!error.isUndefined)
      assert (!error.isNull)
      return Result.failure error
  | .success _ => .ok r

/-- `Result#or(other)` (source `src/result.ts`): `assert(isResult(other))`,
then `Success` returns itself and `Failure` returns `other`. -/
def Result.or (r : Result) (other : JSVal) : Except EauxError JSVal := do
  assert other.isResult
  match r with
  | .failure _ => return other
  | .success _ => return .jsResult r

/-- `Result#unwrap()` (source `src/result.ts`): `Success` returns the
contained value; `Failure` throws an `ImproperUnwrapError` with a fixed
message. -/
def Result.unwrap (r : Result) : Except EauxError JSVal :=
  match r with
  | .failure _ => .error (.improperUnwrapError "Attempted to unwrap a `Failure` value")
  | .success v => .ok v

/-- `Result#unwrapFailure()` (source `src/result.ts`): `Failure` returns the
contained error; `Success` throws an `ImproperUnwrapError` with a fixed
message. -/
def Result.unwrapFailure (r : Result) : Except EauxError JSVal :=
  match r with
  | .failure e => .ok e
  | .success _ => .error (.improperUnwrapError "Attempted to unwrap a `Success` value")

/-- JavaScript whitespace test for the characters occurring in the library's
templates (space, newline, tab, carriage return). -/
def isJsSpace (c : Char) : Bool :=
  c == ' ' || c == '\n' || c == '\t' || c == '\r'

/-- `String.prototype.trimStart()` at the character-list level. -/
def jsTrimStartL (l : List Char) : List Char :=
  l.dropWhile isJsSpace

/-- `String.prototype.trim()` at the character-list level. -/
def jsTrimL (l : List Char) : List Char :=
  ((l.dropWhile isJsSpace).reverse.dropWhile isJsSpace).reverse

/-- `String.prototype.trimStart()`. -/
def jsTrimStart (s : String) : String :=
  String.mk (jsTrimStartL s.data)

/-- `String.prototype.trim()`. -/
def jsTrim (s : String) : String :=
  String.mk (jsTrimL s.data)

/-- The value-indentation pipeline of `Result.#convertToString` (source
`src/result.ts` lines 38-42 and 52-56):
`s.split('\n').map((line) => `    ` + line).join('\n').trimStart()`. -/
def jsIndentBlock (s : String) : String :=
  jsTrimStart (String.intercalate "\n" ((s.splitOn "\n").map (fun line => "    " ++ line)))

mutual

/-- JavaScript string coercion `` `${value}` `` of an embedded value: the
primitive coercions for primitives, and the `toString()` renderings for the
two container classes (which, on the two reachable variants, produce the
strings given by `Maybe.renderString` / `Result.renderString` below). -/
def JSVal.toJSString : JSVal → String
  | .jsNull => "null"
  | .jsUndefined => "undefined"
  | .jsBool b => if b then "true" else "false"
  | .jsNum n => ToString.toString n
  | .jsStr s => s
  | .jsMaybe m => m.renderString
  | .jsResult r => r.renderString

/-- The string `Maybe#toString()` (source `src/maybe.ts` lines 175-183)
produces on each of the two reachable variants:
`` `Maybe{ Something{ value: ${this.unwrap()} } }` `` and
`'Maybe{ Nothing }'`. -/
def Maybe.renderString : Maybe → String
  | .nothing => "Maybe\x7b Nothing \x7d"
  | .something v => "Maybe\x7b Something\x7b value: " ++ v.toJSString ++ " \x7d \x7d"

/-- The string `Result#toString()` (source `src/result.ts` lines 35-67 via
`#convertToString` with the `` `${value}` `` stringifier) produces on each of
the two reachable variants: the raw multi-line template with the indented
value block, trimmed. -/
def Result.renderString : Result → String
  | .failure e =>
      jsTrim ("\nResult\x7b\n  Failure\x7b\n    error: " ++ jsIndentBlock e.toJSString
        ++ ",\n  \x7d\n\x7d\n        ")
  | .success v =>
      jsTrim ("\nResult\x7b\n  Success\x7b\n    value: " ++ jsIndentBlock v.toJSString
        ++ ",\n  \x7d\n\x7d\n        ")

end

/-- `Maybe#toString()` (source `src/maybe.ts` lines 175-183): dispatches on
`isSomething()` / `isNothing()` and throws an `UnreachableCodeError` if
neither test matched. -/
def Maybe.toString (m : Maybe) : Except EauxError String :=
  if m.isSomething then do
    let v ← m.unwrap
    return "Maybe\x7b Something\x7b value: " ++ v.toJSString ++ " \x7d \x7d"
  else if m.isNothing then
    return "Maybe\x7b Nothing \x7d"
  else
    .error (.unreachableCodeError "Reached an unreachable code path")

/-- `Result.#convertToString(toStringFunction)` (source `src/result.ts`
lines 35-67): dispatches on `isSuccess()` / `isFailure()`, extracts the
payload with `unwrap()` / `unwrapFailure()`, indents the stringified payload
and trims the surrounding raw template; throws an `UnreachableCodeError` if
neither test matched. -/
def Result.convertToString (r : Result) (toStringFunction : JSVal → String) :
    Except EauxError String :=
  if r.isSuccess then do
    let value ← r.unwrap
    let valueString := jsIndentBlock (toStringFunction value)
    return jsTrim ("\nResult\x7b\n  Success\x7b\n    value: " ++ valueString
      ++ ",\n  \x7d\n\x7d\n        ")
  else if r.isFailure then do
    let error ← r.unwrapFailure
    let errorString := jsIndentBlock (toStringFunction error)
    return jsTrim ("\nResult\x7b\n  Failure\x7b\n    error: " ++ errorString
      ++ ",\n  \x7d\n\x7d\n        ")
  else
    .error (.unreachableCodeError "Reached an unreachable code path")

/-- `Result#toString()` (source `src/result.ts` lines 256-258):
`this.#convertToString((value) => `${value}`)`. -/
def Result.toString (r : Result) : Except EauxError String :=
  r.convertToString (fun value => value.toJSString)

lemma isAbsent_false_elim {e : JSVal} (he : e.isAbsent = false) :
    e.isUndefined = false ∧ e.isNull = false := by
  cases e <;> simp_all [JSVal.isAbsent, JSVal.isNull, JSVal.isUndefined]

lemma failure_ok {e : JSVal} (he : e.isAbsent = false) :
    failure e = .ok (Result.failure e) := by
  obtain ⟨h1, h2⟩ := isAbsent_false_elim he
  simp [failure, assert, h1, h2, bind, Except.bind, pure, Except.pure]

lemma failure_absent {e : JSVal} (he : e.isAbsent = true) :
    failure e = .error .assertionFailed := by
  cases e <;> simp_all [JSVal.isAbsent, JSVal.isNull, JSVal.isUndefined] <;>
    simp [failure, assert, bind, Except.bind, JSVal.isNull, JSVal.isUndefined]

/-- C1: `failure(e)` raises at construction (an assert-style abort, before any
`Failure` container exists) exactly when `e` is absent (null or undefined);
for non-absent `e` it produces a `Failure` with
`getFailure().unwrap() == e` and `getSuccess().isNothing() == true`.
On a `Failure(e)`, `mapFailure(f)` raises at the boundary when `f(e)` is
absent, and otherwise returns `Failure(f(e))`. -/
theorem c1_failure_construction_validation :
    (∀ e : JSVal, e.isAbsent = true → failure e = .error .assertionFailed) ∧
    (∀ e : JSVal, e.isAbsent = false →
      ∃ r, failure e = .ok r ∧ r.getFailure.unwrap = .ok e ∧ r.getSuccess.isNothing = true) ∧
    (∀ (e : JSVal) (f : JSVal → JSVal), (f e).isAbsent = true →
      (Result.failure e).mapFailure f = .error .assertionFailed) ∧
    (∀ (e : JSVal) (f : JSVal → JSVal), (f e).isAbsent = false →
      (Result.failure e).mapFailure f = .ok (Result.failure (f e))) := by
  refine ⟨fun e he => failure_absent he, fun e he => ⟨Result.failure e, failure_ok he, rfl, rfl⟩,
    fun e f hf => ?_, fun e f hf => ?_⟩
  · cases hfe : f e <;> simp_all [JSVal.isAbsent, JSVal.isNull, JSVal.isUndefined] <;>
      simp [Result.mapFailure, hfe, assert, JSVal.isUndefined, JSVal.isNull, bind, Except.bind]
  · obtain ⟨h1, h2⟩ := isAbsent_false_elim hf
    simp [Result.mapFailure, assert, h1, h2, bind, Except.bind, pure, Except.pure]

/-- Witness for C1 at concrete inputs: `e = null` aborts; `e = 42` constructs a
proper `Failure`; mapping `42 ↦ undefined` aborts; mapping `42 ↦ "mapped"`
produces `Failure("mapped")`. -/
theorem c1_witness :
    (failure .jsNull = .error .assertionFailed) ∧
    (∃ r, failure (.jsNum 42) = .ok r ∧ r.getFailure.unwrap = .ok (.jsNum 42) ∧
      r.getSuccess.isNothing = true) ∧
    ((Result.failure (.jsNum 42)).mapFailure (fun _ => .jsUndefined) = .error .assertionFailed) ∧
    ((Result.failure (.jsNum 42)).mapFailure (fun _ => .jsStr "mapped") =
      .ok (Result.failure (.jsStr "mapped"))) :=
  ⟨c1_failure_construction_validation.1 .jsNull rfl,
   c1_failure_construction_validation.2.1 (.jsNum 42) rfl,
   c1_failure_construction_validation.2.2.1 (.jsNum 42) (fun _ => .jsUndefined) rfl,
   c1_failure_construction_validation.2.2.2 (.jsNum 42) (fun _ => .jsStr "mapped") rfl⟩

/-- C2: the factory entry points always produce the stated variant:
`something(v)` satisfies `isSomething`, not `isNothing`, and unwraps to `v`;
`success(v)` has `getSuccess().unwrap() == v` and
`getFailure().isNothing() == true`; `nothing()` is `Nothing` and (for a
genuine error) `failure(e)` is a `Failure`. -/
theorem c2_factories_produce_stated_variant :
    (∀ v : JSVal, (something v).isSomething = true) ∧
    (∀ v : JSVal, (something v).isNothing = false) ∧
    (∀ v : JSVal, (something v).unwrap = .ok v) ∧
    (∀ v : JSVal, (success v).getSuccess.unwrap = .ok v) ∧
    (∀ v : JSVal, (success v).getFailure.isNothing = true) ∧
    (nothing.isNothing = true) ∧
    (∀ e : JSVal, e.isAbsent = false → ∃ r, failure e = .ok r ∧ r.isFailure = true) :=
  ⟨fun _ => rfl, fun _ => rfl, fun _ => rfl, fun _ => rfl, fun _ => rfl, rfl,
   fun e he => ⟨Result.failure e, failure_ok he, rfl⟩⟩

/-- Witness for C2: the last conjunct applied at the concrete error `"boom"`. -/
theorem c2_witness :
    ((something (.jsNum 7)).unwrap = .ok (.jsNum 7)) ∧
    (∃ r, failure (.jsStr "boom") = .ok r ∧ r.isFailure = true) :=
  ⟨c2_factories_produce_stated_variant.2.2.1 (.jsNum 7),
   c2_factories_produce_stated_variant.2.2.2.2.2.2 (.jsStr "boom") rfl⟩

/-- C3: under the documented public contract, the checked `Result`
combinators never raise: `and`/`or` succeed whenever the argument is a
`Result`, `andThen` succeeds whenever the callback returns a `Result`, and
`isSuccessAnd`/`isFailureAnd` succeed whenever the predicate returns a
boolean — so the internal assertion checks never fire. (The remaining
combinators other than `expect`, `expectFailure`, `unwrap`, `unwrapFailure`
and the `failure`/`mapFailure` validation are total by construction in this
embedding: they carry no `Except`.) -/
theorem c3_combinators_total_under_contract :
    (∀ (r : Result) (other : JSVal), other.isResult = true → ∃ x, r.and other = .ok x) ∧
    (∀ (r : Result) (other : JSVal), other.isResult = true → ∃ x, r.or other = .ok x) ∧
    (∀ (r : Result) (f : JSVal → JSVal), (∀ v, (f v).isResult = true) →
      ∃ x, r.andThen f = .ok x) ∧
    (∀ (r : Result) (p : JSVal → JSVal), (∀ v, (p v).isBool = true) →
      ∃ x, r.isSuccessAnd p = .ok x) ∧
    (∀ (r : Result) (p : JSVal → JSVal), (∀ v, (p v).isBool = true) →
      ∃ x, r.isFailureAnd p = .ok x) := by
  refine ⟨fun r other h => ?_, fun r other h => ?_, fun r f h => ?_, fun r p h => ?_,
    fun r p h => ?_⟩
  · cases r with
    | failure e =>
        exact ⟨.jsResult (Result.failure e),
          by simp [Result.and, assert, h, bind, Except.bind, pure, Except.pure]⟩
    | success v =>
        exact ⟨other,
          by simp [Result.and, assert, h, bind, Except.bind, pure, Except.pure]⟩
  · cases r with
    | failure e =>
        exact ⟨other,
          by simp [Result.or, assert, h, bind, Except.bind, pure, Except.pure]⟩
    | success v =>
        exact ⟨.jsResult (Result.success v),
          by simp [Result.or, assert, h, bind, Except.bind, pure, Except.pure]⟩
  · cases r with
    | failure e => exact ⟨.jsResult (Result.failure e), rfl⟩
    | success v =>
        exact ⟨f v,
          by simp [Result.andThen, assert, h v, bind, Except.bind, pure, Except.pure]⟩
  · cases r with
    | failure e => exact ⟨.jsBool false, rfl⟩
    | success v =>
        exact ⟨p v,
          by simp [Result.isSuccessAnd, assert, h v, bind, Except.bind, pure, Except.pure]⟩
  · cases r with
    | failure e =>
        exact ⟨p e,
          by simp [Result.isFailureAnd, assert, h e, bind, Except.bind, pure, Except.pure]⟩
    | success v => exact ⟨.jsBool false, rfl⟩

/-- Witness for C3 at concrete inputs: a `Success` combined with a concrete
`Result` argument, a `Result`-returning callback, and boolean-returning
predicates. -/
theorem c3_witness :
    (∃ x, (success (.jsNum 1)).and (.jsResult (success (.jsNum 2))) = .ok x) ∧
    (∃ x, (Result.failure (.jsStr "e")).or (.jsResult (success (.jsNum 2))) = .ok x) ∧
    (∃ x, (success (.jsNum 1)).andThen (fun v => .jsResult (success v)) = .ok x) ∧
    (∃ x, (success (.jsNum 1)).isSuccessAnd (fun _ => .jsBool true) = .ok x) ∧
    (∃ x, (Result.failure (.jsStr "e")).isFailureAnd (fun _ => .jsBool false) = .ok x) :=
  ⟨c3_combinators_total_under_contract.1 _ _ rfl,
   c3_combinators_total_under_contract.2.1 _ _ rfl,
   c3_combinators_total_under_contract.2.2.1 _ _ (fun _ => rfl),
   c3_combinators_total_under_contract.2.2.2.1 _ _ (fun _ => rfl),
   c3_combinators_total_under_contract.2.2.2.2 _ _ (fun _ => rfl)⟩

/-- C4: `unwrap()` on `Nothing` / `Failure` (and `unwrapFailure()` on
`Success`) raises `ImproperUnwrap` with the fixed descriptive message
identifying the misused extraction; `expect(msg)` on `Nothing` / `Failure`
(and `expectFailure(msg)` on `Success`) raises `ExpectationFailure` carrying
exactly the caller-supplied message; on the matching variant these
operations return the payload without raising. -/
theorem c4_unwrap_expect_errors :
    (nothing.unwrap = .error (.improperUnwrapError "Attempted to unwrap a `Nothing` value")) ∧
    (∀ e : JSVal, (Result.failure e).unwrap =
      .error (.improperUnwrapError "Attempted to unwrap a `Failure` value")) ∧
    (∀ v : JSVal, (success v).unwrapFailure =
      .error (.improperUnwrapError "Attempted to unwrap a `Success` value")) ∧
    (∀ msg : String, nothing.expect msg = .error (.expectationError msg)) ∧
    (∀ (e : JSVal) (msg : String),
      (Result.failure e).expect msg = .error (.expectationError msg)) ∧
    (∀ (v : JSVal) (msg : String),
      (success v).expectFailure msg = .error (.expectationError msg)) ∧
    (∀ v : JSVal, (something v).unwrap = .ok v) ∧
    (∀ v : JSVal, (success v).unwrap = .ok v) ∧
    (∀ e : JSVal, (Result.failure e).unwrapFailure = .ok e) ∧
    (∀ (v : JSVal) (msg : String), (something v).expect msg = .ok v) ∧
    (∀ (v : JSVal) (msg : String), (success v).expect msg = .ok v) ∧
    (∀ (e : JSVal) (msg : String), (Result.failure e).expectFailure msg = .ok e) :=
  ⟨rfl, fun _ => rfl, fun _ => rfl, fun _ => rfl, fun _ _ => rfl, fun _ _ => rfl,
   fun _ => rfl, fun _ => rfl, fun _ => rfl, fun _ _ => rfl, fun _ _ => rfl, fun _ _ => rfl⟩

/-- C5: round-trip between the two containers for a genuine (non-absent)
error: `something(v).getSuccessOr(e).getSuccess().unwrap() == v` and
`nothing().getSuccessOr(e).unwrapFailure() == e`. -/
theorem c5_round_trip (v e : JSVal) (he : e.isAbsent = false) :
    (∃ r, (something v).getSuccessOr e = .ok r ∧ r.getSuccess.unwrap = .ok v) ∧
    (∃ r, nothing.getSuccessOr e = .ok r ∧ r.unwrapFailure = .ok e) :=
  ⟨⟨success v, rfl, rfl⟩, ⟨Result.failure e, failure_ok he, rfl⟩⟩

/-- Witness for C5 at `v = 42`, `e = "missing"`. -/
theorem c5_witness :
    ((JSVal.jsStr "missing").isAbsent = false) ∧
    ((∃ r, (something (.jsNum 42)).getSuccessOr (.jsStr "missing") = .ok r ∧
        r.getSuccess.unwrap = .ok (.jsNum 42)) ∧
     (∃ r, nothing.getSuccessOr (.jsStr "missing") = .ok r ∧
        r.unwrapFailure = .ok (.jsStr "missing"))) :=
  ⟨rfl, c5_round_trip (.jsNum 42) (.jsStr "missing") rfl⟩

/-- C6: map preserves the variant and composes:
`something(v).map(f).map(g)` equals `something(v).map(x => g(f(x)))`, and
`nothing().map(f)` equals `nothing()` with the callback never invoked (the
instrumented `mapT` leaves the threaded state untouched on `Nothing`). -/
theorem c6_map_composition :
    (∀ (v : JSVal) (f g : JSVal → JSVal),
      ((something v).map f).map g = (something v).map (fun x => g (f x))) ∧
    (∀ f : JSVal → JSVal, nothing.map f = nothing) ∧
    (∀ (σ : Type) (f : σ → JSVal → σ × JSVal) (s : σ),
      nothing.mapT f s = (s, nothing)) :=
  ⟨fun _ _ _ => rfl, fun _ => rfl, fun _ _ _ => rfl⟩

/-- C7: identity/absorption laws for the `Maybe` combinators `and`/`or`:
`nothing().and(x) == nothing()`, `something(v).and(x) == x`,
`something(v).or(x) == something(v)`, `nothing().or(x) == x`. -/
theorem c7_and_or_laws :
    (∀ x : Maybe, nothing.and x = nothing) ∧
    (∀ (v : JSVal) (x : Maybe), (something v).and x = x) ∧
    (∀ (v : JSVal) (x : Maybe), (something v).or x = something v) ∧
    (∀ x : Maybe, nothing.or x = x) :=
  ⟨fun _ => rfl, fun _ _ => rfl, fun _ _ => rfl, fun _ => rfl⟩

/-- C8: `inspect` (and `inspectFailure`) invoke the callback exactly once
with the contained payload on the qualifying variant — the threaded state
becomes `f s v` — and never invoke it on the other variant — the state is
returned untouched; in every case the returned container is the receiver,
unaltered. -/
theorem c8_inspect_effects :
    (∀ (σ : Type) (v : JSVal) (f : σ → JSVal → σ) (s : σ),
      (something v).inspect f s = (f s v, something v)) ∧
    (∀ (σ : Type) (f : σ → JSVal → σ) (s : σ), nothing.inspect f s = (s, nothing)) ∧
    (∀ (σ : Type) (v : JSVal) (f : σ → JSVal → σ) (s : σ),
      (success v).inspect f s = (f s v, success v)) ∧
    (∀ (σ : Type) (v : JSVal) (f : σ → JSVal → σ) (s : σ),
      (success v).inspectFailure f s = (s, success v)) ∧
    (∀ (σ : Type) (e : JSVal) (f : σ → JSVal → σ) (s : σ),
      (Result.failure e).inspectFailure f s = (f s e, Result.failure e)) ∧
    (∀ (σ : Type) (e : JSVal) (f : σ → JSVal → σ) (s : σ),
      (Result.failure e).inspect f s = (s, Result.failure e)) :=
  ⟨fun _ _ _ _ => rfl, fun _ _ _ => rfl, fun _ _ _ _ => rfl, fun _ _ _ _ => rfl,
   fun _ _ _ _ => rfl, fun _ _ _ _ => rfl⟩

/-- C9: converting a `Nothing` to a `Result` with an absent fallback error
raises the assert-style abort at the conversion boundary (no `Failure`
container is produced), because `Nothing#getSuccessOr` delegates to the
`failure` constructor's non-absent precondition. -/
theorem c9_getSuccessOr_absent_error (e : JSVal) (he : e.isAbsent = true) :
    nothing.getSuccessOr e = .error .assertionFailed :=
  failure_absent he

/-- Witness for C9 at `e = null`. -/
theorem c9_witness :
    (JSVal.jsNull.isAbsent = true) ∧
    (nothing.getSuccessOr .jsNull = .error .assertionFailed) :=
  ⟨rfl, c9_getSuccessOr_absent_error .jsNull rfl⟩

lemma dropWhile_append_left {p : Char → Bool} {a : List Char} (b : List Char)
    (h : a.dropWhile p ≠ []) : (a ++ b).dropWhile p = a.dropWhile p ++ b := by
  rw [List.dropWhile_append, if_neg]
  simpa [List.isEmpty_iff] using h

lemma jsTrimL_sandwich (P S M : List Char)
    (hP : P.dropWhile isJsSpace ≠ []) (hS : S.reverse.dropWhile isJsSpace ≠ []) :
    jsTrimL (P ++ M ++ S) =
      P.dropWhile isJsSpace ++ M ++ (S.reverse.dropWhile isJsSpace).reverse := by
  unfold jsTrimL
  rw [List.append_assoc, dropWhile_append_left _ hP, List.reverse_append,
    List.reverse_append, List.append_assoc, dropWhile_append_left _ hS]
  simp [List.reverse_append, List.reverse_reverse, List.append_assoc]

lemma jsTrim_success_template (mid : String) :
    jsTrim ("\nResult\x7b\n  Success\x7b\n    value: " ++ mid ++ ",\n  \x7d\n\x7d\n        ") =
      "Result\x7b\n  Success\x7b\n    value: " ++ mid ++ ",\n  \x7d\n\x7d" := by
  apply String.ext
  show jsTrimL ("\nResult\x7b\n  Success\x7b\n    value: " ++ mid
      ++ ",\n  \x7d\n\x7d\n        ").data = _
  simp only [String.data_append]
  rw [jsTrimL_sandwich _ _ _ (by decide) (by decide)]
  rw [show "\nResult\x7b\n  Success\x7b\n    value: ".data.dropWhile isJsSpace =
    "Result\x7b\n  Success\x7b\n    value: ".data from by decide]
  rw [show (",\n  \x7d\n\x7d\n        ".data.reverse.dropWhile isJsSpace).reverse =
    ",\n  \x7d\n\x7d".data from by decide]

lemma jsTrim_failure_template (mid : String) :
    jsTrim ("\nResult\x7b\n  Failure\x7b\n    error: " ++ mid ++ ",\n  \x7d\n\x7d\n        ") =
      "Result\x7b\n  Failure\x7b\n    error: " ++ mid ++ ",\n  \x7d\n\x7d" := by
  apply String.ext
  show jsTrimL ("\nResult\x7b\n  Failure\x7b\n    error: " ++ mid
      ++ ",\n  \x7d\n\x7d\n        ").data = _
  simp only [String.data_append]
  rw [jsTrimL_sandwich _ _ _ (by decide) (by decide)]
  rw [show "\nResult\x7b\n  Failure\x7b\n    error: ".data.dropWhile isJsSpace =
    "Result\x7b\n  Failure\x7b\n    error: ".data from by decide]
  rw [show (",\n  \x7d\n\x7d\n        ".data.reverse.dropWhile isJsSpace).reverse =
    ",\n  \x7d\n\x7d".data from by decide]

/-- C10: the diagnostic rendering. `something(v)` renders as
`Maybe{ Something{ value: <v> } }` and `nothing()` as `Maybe{ Nothing }`;
`success(v)` renders as the trimmed indented block
`Result{ / Success{ / value: <v>, / } / }` and a `Failure(e)` dually as
`Result{ / Failure{ error: <e>, } }` — in each case the payload rendered
through the string coercion (and, for `Result`, the indentation pipeline).
The unreachable-variant branch of either renderer is never taken: both
renderers always return a string, never the `UnreachableCodeError`. -/
theorem c10_toString_rendering :
    (∀ v : JSVal, (something v).toString =
      .ok ("Maybe\x7b Something\x7b value: " ++ v.toJSString ++ " \x7d \x7d")) ∧
    (nothing.toString = .ok "Maybe\x7b Nothing \x7d") ∧
    (∀ v : JSVal, (success v).toString =
      .ok ("Result\x7b\n  Success\x7b\n    value: " ++ jsIndentBlock v.toJSString
        ++ ",\n  \x7d\n\x7d")) ∧
    (∀ e : JSVal, (Result.failure e).toString =
      .ok ("Result\x7b\n  Failure\x7b\n    error: " ++ jsIndentBlock e.toJSString
        ++ ",\n  \x7d\n\x7d")) ∧
    (∀ m : Maybe, m.toString = .ok m.renderString) ∧
    (∀ r : Result, r.toString = .ok r.renderString) := by
  refine ⟨fun v => rfl, rfl, fun v => ?_, fun e => ?_, fun m => ?_, fun r => ?_⟩
  · rw [show (success v).toString = .ok (jsTrim ("\nResult\x7b\n  Success\x7b\n    value: "
      ++ jsIndentBlock v.toJSString ++ ",\n  \x7d\n\x7d\n        ")) from rfl,
      jsTrim_success_template]
  · rw [show (Result.failure e).toString = .ok (jsTrim ("\nResult\x7b\n  Failure\x7b\n    error: "
      ++ jsIndentBlock e.toJSString ++ ",\n  \x7d\n\x7d\n        ")) from rfl,
      jsTrim_failure_template]
  · cases m <;> rfl
  · cases r <;> rfl

end Eaux
